import Mathlib

/-!
Shallow embedding of the `session` package of SexMC/dragonfly
(src/unnamed/part_000) and proofs about it.

The package is the per-connection protocol session layer: it validates and
dispatches inbound packets (`handleText`, `handleCommandRequest`,
`handlePacket`, `handlePackets`), constructs outbound packets
(`SendMessage`, `SendTip`, ..., `Disconnect`, `Transfer`,
`SendCommandOutput`, `SendAvailableCommands`) and maps generic command
parameter values to wire argument types (`valueToParamType`).

Modelling conventions:
* Side effects (calls into the `Controllable`, writes on the connection,
  chat-sink announcements, log lines) are recorded in an explicit `Effect`
  trace; mutable session fields are an explicit `SessionState` record.
* Go runtime panics are modelled by `Except.error`: a function that can
  panic returns `Except String α`.
* Machine integers are `Nat`/`Int` with explicit `% 2 ^ w` at the
  conversions the source performs (`uint16(port)`, `uint32(count)`).
* External protocol constants (gophertunnel `packet`/`protocol` packages)
  are reproduced by value; the claims only depend on their distinctness.
-/

set_option autoImplicit false

namespace Dragonfly

/-! ### Wire constants (gophertunnel `minecraft/protocol/packet`) -/

def TextTypeRaw : Nat := 0
def TextTypeChat : Nat := 1
def TextTypeTranslation : Nat := 2
def TextTypePopup : Nat := 3
def TextTypeJukeboxPopup : Nat := 4
def TextTypeTip : Nat := 5
def TextTypeSystem : Nat := 6
def TextTypeWhisper : Nat := 7
def TextTypeAnnouncement : Nat := 8

def TitleActionSetTitle : Nat := 2
def TitleActionSetSubtitle : Nat := 3
def TitleActionSetActionBar : Nat := 4

def DimensionOverworld : Nat := 0
def DimensionNether : Nat := 1
def DimensionEnd : Nat := 2

/-! ### Wire constants (gophertunnel `minecraft/protocol`, command args) -/

def CommandArgValid : Nat := 0x100000
def CommandArgTypeInt : Nat := 1
def CommandArgTypeFloat : Nat := 2
def CommandArgTypeValue : Nat := 3
def CommandArgTypeTarget : Nat := 6
def CommandArgTypeString : Nat := 27
def CommandArgTypePosition : Nat := 29

/-! ### Go values as seen by `valueToParamType`

`valueToParamType` receives an `interface{}` and discriminates on its
dynamic type: a type switch over the primitive kinds and `mgl32.Vec3`,
then interface type assertions against `cmd.Parameter` and `cmd.Enum`.
A `GoValue` records exactly that information: the branch of the type
switch the dynamic type falls into, and the two optional capabilities
(with the data their methods return). Payloads of the primitive kinds are
irrelevant to classification and omitted. -/

/-- Branch of the type switch in `valueToParamType` that a dynamic Go type
falls into. -/
inductive GoType where
  /-- `int, int8, int16, int32, int64, uint, uint8, uint16, uint32, uint64` -/
  | intKind
  /-- `float32, float64` -/
  | floatKind
  /-- `string` -/
  | stringKind
  /-- `bool` -/
  | boolKind
  /-- `mgl32.Vec3` -/
  | vec3Kind
  /-- any other dynamic type (reaches the capability tests) -/
  | otherKind
deriving DecidableEq, Repr

/-- A Go `interface{}` value as discriminated by `valueToParamType`. -/
structure GoValue where
  type : GoType
  /-- `some t` when the dynamic type implements `cmd.Parameter`, where `t`
  is what its `Type()` method returns; `none` when the `i.(cmd.Parameter)`
  assertion fails. -/
  paramCap : Option String
  /-- `some (t, opts)` when the dynamic type implements `cmd.Enum`, where
  `t`/`opts` are what `Type()`/`Options()` return; `none` when the
  `i.(cmd.Enum)` assertion fails. -/
  enumCap : Option (String × List String)
deriving DecidableEq, Repr

/-- `protocol.CommandEnum`. The Go zero value is `{Type: "", Options: nil}`. -/
structure CommandEnum where
  type : String
  options : List String
deriving DecidableEq, Repr

/-- The zero `protocol.CommandEnum`, the value of the named return `enum`
when no enum is constructed. -/
def emptyEnum : CommandEnum := ⟨"", []⟩

/-- The Go runtime panic raised by calling a method on a nil interface. -/
def nilInterfaceMsg : String :=
  "runtime error: invalid memory address or nil pointer dereference"

/-- Shallow embedding of `valueToParamType` (src/unnamed/part_000:301-327).

The guard on line 317 reads
`if param, ok := i.(cmd.Parameter); ok && param.Type() == "player" || param.Type() == "target"`.
By Go precedence this parses as
`(ok && param.Type() == "player") || param.Type() == "target"`,
so when `ok` is false the right disjunct still evaluates
`param.Type()` — a method call on a nil interface value, which panics.
Hence every value that falls through the type switch and does not
implement `cmd.Parameter` produces a runtime panic, modelled here as
`Except.error nilInterfaceMsg`. -/
def valueToParamType (i : GoValue) : Except String (Nat × CommandEnum) :=
  match i.type with
  | .intKind => .ok (CommandArgTypeInt, emptyEnum)
  | .floatKind => .ok (CommandArgTypeFloat, emptyEnum)
  | .stringKind => .ok (CommandArgTypeString, emptyEnum)
  | .boolKind => .ok (0, ⟨"bool", ["true", "1", "false", "0"]⟩)
  | .vec3Kind => .ok (CommandArgTypePosition, emptyEnum)
  | .otherKind =>
    match i.paramCap with
    | some t =>
      if t = "player" ∨ t = "target" then
        .ok (CommandArgTypeTarget, emptyEnum)
      else
        match i.enumCap with
        | some (et, opts) => .ok (0, ⟨et, opts⟩)
        | none => .ok (CommandArgTypeValue, emptyEnum)
    | none => .error nilInterfaceMsg

/-! ### Session data model -/

/-- `protocol.CommandOrigin`, the opaque correlation token carried by a
command request and echoed on command output. -/
structure CommandOrigin where
  origin : Nat
  uuid : String
  requestID : String
  playerUniqueID : Int
deriving DecidableEq, Repr

/-- The mutable/immutable session fields the handlers and senders touch:
`conn.IdentityData().DisplayName` (immutable), the atomic
`controllableClosed` flag, and the `cmdOrigin` correlation token. -/
structure SessionState where
  displayName : String
  controllableClosed : Bool
  cmdOrigin : CommandOrigin
deriving DecidableEq, Repr

/-- `packet.Text`, restricted to the fields this package reads or writes
(`TextType`, `SourceName`, `Message`); the remaining fields are left at
their zero values by every sender and never read by the handler. -/
structure TextPacket where
  textType : Nat
  sourceName : String
  message : String
deriving DecidableEq, Repr

/-- `packet.CommandRequest`, restricted to the fields this package reads. -/
structure CommandRequestPacket where
  commandLine : String
  commandOrigin : CommandOrigin
  internal : Bool
deriving DecidableEq, Repr

/-- `mgl32.Vec3`; only the zero vector ever appears in this package, so
the float components are modelled as integers. -/
structure Vec3 where
  x : Int
  y : Int
  z : Int
deriving DecidableEq, Repr

def zeroVec3 : Vec3 := ⟨0, 0, 0⟩

/-- `protocol.CommandOutputMessage`. -/
structure CommandOutputMessage where
  success : Bool
  message : String
deriving DecidableEq, Repr

/-- `protocol.CommandParameter` as filled in by `SendAvailableCommands`. -/
structure CommandParameter where
  name : String
  type : Nat
  optional : Bool
  collapseEnumOptions : Bool
  enum : CommandEnum
  suffix : String
deriving DecidableEq, Repr

/-- `protocol.CommandOverload`. -/
structure CommandOverload where
  parameters : List CommandParameter
deriving DecidableEq, Repr

/-- `protocol.Command`, one descriptor in an AvailableCommands packet. -/
structure ProtoCommand where
  name : String
  description : String
  aliases : List String
  overloads : List CommandOverload
deriving DecidableEq, Repr

/-- Outbound packets this package writes, with the fields the source sets. -/
inductive Packet where
  | text (p : TextPacket)
  | setTitle (actionType : Nat) (titleText : String) (fadeInDuration remainDuration fadeOutDuration : Int)
  | changeDimension (dimension : Nat) (position : Vec3) (respawn : Bool)
  | disconnect (hideDisconnectionScreen : Bool) (message : String)
  | transfer (address : String) (port : Nat)
  | commandOutput (commandOrigin : CommandOrigin) (outputType : Nat)
      (successCount : Nat) (outputMessages : List CommandOutputMessage)
  | availableCommands (commands : List ProtoCommand)
deriving DecidableEq, Repr

/-- Inbound packets as discriminated by `handlePacket`: the two recognized
variants, and everything else (carrying only its type name, which is all
the default arm uses). -/
inductive InPacket where
  | text (p : TextPacket)
  | commandRequest (p : CommandRequestPacket)
  | other (typeName : String)
deriving DecidableEq, Repr

/-- One observable side effect of the session: a call into the
`Controllable`, a close, a packet write, a chat-sink announcement, or a
log line. -/
inductive Effect where
  /-- `s.c.Chat(text)` -/
  | chat (text : String)
  /-- `s.c.ExecuteCommand(line)` -/
  | executeCommand (line : String)
  /-- `s.c.Close()` -/
  | closeControllable
  /-- `s.conn.Close()` -/
  | closeConn
  /-- `s.conn.WritePacket(pk)` -/
  | write (pk : Packet)
  /-- `chat.Global.Println(...)` -/
  | announce (text : String)
  /-- `s.log.Errorf(...)` -/
  | logError (msg : String)
  /-- `s.log.Debugf(...)` -/
  | logDebug (msg : String)
deriving DecidableEq, Repr

/-! ### Inbound handlers -/

/-- `handleText` (src/unnamed/part_000:99-108): reject a text packet whose
type is not chat, reject a spoofed source name, otherwise forward the
message to `Controllable.Chat`. Touches no session state and writes no
packet. -/
def handleText (s : SessionState) (pk : TextPacket) : Except String (List Effect) :=
  if pk.textType ≠ TextTypeChat then
    .error "text packet can only contain text type of type chat"
  else if pk.sourceName ≠ s.displayName then
    .error "text packet source name must be equal to display name"
  else
    .ok [.chat pk.message]

/-- `handleCommandRequest` (src/unnamed/part_000:111-118): reject a request
with the internal flag set; otherwise record the origin token and forward
the command line to `Controllable.ExecuteCommand`. -/
def handleCommandRequest (s : SessionState) (pk : CommandRequestPacket) :
    Except String (SessionState × List Effect) :=
  if pk.internal then
    .error "command request packet must never have the internal field set to true"
  else
    .ok ({ s with cmdOrigin := pk.commandOrigin }, [.executeCommand pk.commandLine])

/-- `handlePacket` (src/unnamed/part_000:86-96): dispatch on the packet
variant; unrecognized variants are logged at debug level and succeed. -/
def handlePacket (s : SessionState) (pk : InPacket) :
    Except String (SessionState × List Effect) :=
  match pk with
  | .text p =>
    match handleText s p with
    | .ok effs => .ok (s, effs)
    | .error e => .error e
  | .commandRequest p => handleCommandRequest s p
  | .other typeName => .ok (s, [.logDebug ("unhandled packet " ++ typeName)])

/-! ### Outbound senders

Each sender is modelled as `SessionState → args → SessionState × List Effect`:
the session state after the call and the trace of effects. Write errors
are discarded by the source (`_ = s.conn.WritePacket(...)`), so a write
always appears in the trace and never produces an error. -/

/-- `SendMessage` (src/unnamed/part_000:121-126). -/
def SendMessage (s : SessionState) (message : String) : SessionState × List Effect :=
  (s, [.write (.text ⟨TextTypeRaw, "", message⟩)])

/-- `SendTip` (src/unnamed/part_000:129-134). Note: the source sets
`TextType: packet.TextTypePopup`, not `TextTypeTip`. -/
def SendTip (s : SessionState) (message : String) : SessionState × List Effect :=
  (s, [.write (.text ⟨TextTypePopup, "", message⟩)])

/-- `SendAnnouncement` (src/unnamed/part_000:137-142). -/
def SendAnnouncement (s : SessionState) (message : String) : SessionState × List Effect :=
  (s, [.write (.text ⟨TextTypeAnnouncement, "", message⟩)])

/-- `SendPopup` (src/unnamed/part_000:145-150). -/
def SendPopup (s : SessionState) (message : String) : SessionState × List Effect :=
  (s, [.write (.text ⟨TextTypePopup, "", message⟩)])

/-- `SendJukeBoxPopup` (src/unnamed/part_000:153-158). -/
def SendJukeBoxPopup (s : SessionState) (message : String) : SessionState × List Effect :=
  (s, [.write (.text ⟨TextTypeJukeboxPopup, "", message⟩)])

/-- `SendTitle` (src/unnamed/part_000:161-169). -/
def SendTitle (s : SessionState) (titleText : String)
    (fadeInDuration remainDuration fadeOutDuration : Int) : SessionState × List Effect :=
  (s, [.write (.setTitle TitleActionSetTitle titleText
        fadeInDuration remainDuration fadeOutDuration)])

/-- `SendSubTitle` (src/unnamed/part_000:172-180). -/
def SendSubTitle (s : SessionState) (titleText : String)
    (fadeInDuration remainDuration fadeOutDuration : Int) : SessionState × List Effect :=
  (s, [.write (.setTitle TitleActionSetSubtitle titleText
        fadeInDuration remainDuration fadeOutDuration)])

/-- `SendActionBarMessage` (src/unnamed/part_000:183-191). -/
def SendActionBarMessage (s : SessionState) (titleText : String)
    (fadeInDuration remainDuration fadeOutDuration : Int) : SessionState × List Effect :=
  (s, [.write (.setTitle TitleActionSetActionBar titleText
        fadeInDuration remainDuration fadeOutDuration)])

/-- `SendNetherDimension` (src/unnamed/part_000:194-200). -/
def SendNetherDimension (s : SessionState) : SessionState × List Effect :=
  (s, [.write (.changeDimension DimensionNether zeroVec3 false)])

/-- `SendEndDimension` (src/unnamed/part_000:203-209). -/
def SendEndDimension (s : SessionState) : SessionState × List Effect :=
  (s, [.write (.changeDimension DimensionEnd zeroVec3 false)])

/-- `SendOverworldDimension` (src/unnamed/part_000:212-218). -/
def SendOverworldDimension (s : SessionState) : SessionState × List Effect :=
  (s, [.write (.changeDimension DimensionOverworld zeroVec3 false)])

/-- `Disconnect` (src/unnamed/part_000:222-228): write a Disconnect packet
(hiding the disconnection screen exactly when the message is empty), then
store `true` into the `controllableClosed` flag. -/
def Disconnect (s : SessionState) (message : String) : SessionState × List Effect :=
  ({ s with controllableClosed := true },
    [.write (.disconnect (message == "") message)])

/-- `net.IP` as used by `Transfer`: only its `String()` rendering is ever
consumed, so the model carries just that. -/
structure NetIP where
  render : String
deriving DecidableEq, Repr

/-- `Transfer` (src/unnamed/part_000:231-236): the Go conversion
`uint16(port)` truncates the int to its low 16 bits, i.e. reduces it
modulo `2 ^ 16` (`Int.emod` picks the representative in `[0, 2 ^ 16)`,
matching two's-complement truncation for negative ports). -/
def Transfer (s : SessionState) (ip : NetIP) (port : Int) : SessionState × List Effect :=
  (s, [.write (.transfer ip.render (port % (2 ^ 16 : Int)).toNat)])

/-- `cmd.Output` (external collaborator, spec §3): an ordered sequence of
success messages and an ordered sequence of errors; `MessageCount()` /
`ErrorCount()` are the lengths, `Messages()` / `Errors()` the contents,
and `err.Error()` the error's text, modelled as the string itself. -/
structure CmdOutput where
  messages : List String
  errors : List String
deriving DecidableEq, Repr

/-- `SendCommandOutput` (src/unnamed/part_000:240-261): one entry per
success message (Success=true), then one per error (Success=false);
`OutputType: 3`, `SuccessCount: uint32(output.MessageCount())` (a 32-bit
truncating conversion), addressed to the stored `cmdOrigin`. -/
def SendCommandOutput (s : SessionState) (output : CmdOutput) : SessionState × List Effect :=
  (s, [.write (.commandOutput s.cmdOrigin 3
        (output.messages.length % 2 ^ 32)
        (output.messages.map (fun m => ⟨true, m⟩)
          ++ output.errors.map (fun e => ⟨false, e⟩)))])

/-! ### SendAvailableCommands -/

/-- `cmd.Parameter` info record (external, spec §3): name, a value used
only to infer the wire type, the optional flag and a suffix. -/
structure ParamInfo where
  name : String
  value : GoValue
  optional : Bool
  suffix : String
deriving DecidableEq, Repr

/-- `cmd.Command` (external, spec §3): name, description, aliases and the
parameter-overload lists returned by `Params()`. -/
structure Command where
  name : String
  description : String
  aliases : List String
  params : List (List ParamInfo)
deriving DecidableEq, Repr

/-- Whether a Go `interface{}` value compares equal to the untyped
constants `false` or `true` (`paramInfo.Value == false || paramInfo.Value
== true`): true exactly when its dynamic type is `bool`. -/
def isBoolValue (v : GoValue) : Bool := v.type == GoType.boolKind

/-- The `protocol.CommandParameter` built for one `ParamInfo` inside
`SendAvailableCommands` (src/unnamed/part_000:277-286), propagating a
panic from `valueToParamType`. The type code is OR'd with
`protocol.CommandArgValid`. -/
def buildParameter (p : ParamInfo) : Except String CommandParameter :=
  match valueToParamType p.value with
  | .error e => .error e
  | .ok (t, enum) =>
    .ok ⟨p.name, t ||| CommandArgValid, p.optional, isBoolValue p.value, enum, p.suffix⟩

/-- The parameters of one overload, in order, first panic aborting. -/
def buildParameters : List ParamInfo → Except String (List CommandParameter)
  | [] => .ok []
  | p :: ps =>
    match buildParameter p, buildParameters ps with
    | .ok c, .ok cs => .ok (c :: cs)
    | .error e, _ => .error e
    | .ok _, .error e => .error e

/-- The overload list of one command (src/unnamed/part_000:273-288). -/
def buildOverloads : List (List ParamInfo) → Except String (List CommandOverload)
  | [] => .ok []
  | ps :: rest =>
    match buildParameters ps, buildOverloads rest with
    | .ok cs, .ok os => .ok (⟨cs⟩ :: os)
    | .error e, _ => .error e
    | .ok _, .error e => .error e

/-- The descriptor list of an AvailableCommands packet
(src/unnamed/part_000:268-295): iterate the catalog entries, skipping an
entry whenever its key differs from the command's declared name
(`if c.Name() != alias { continue }`), and build one descriptor per kept
entry. The catalog — `cmd.Commands()`, a `map[string]cmd.Command` — is
modelled as its iteration sequence, a list of key/command pairs. -/
def buildCommands : List (String × Command) → Except String (List ProtoCommand)
  | [] => .ok []
  | (aliasKey, c) :: rest =>
    if c.name ≠ aliasKey then
      buildCommands rest
    else
      match buildOverloads c.params, buildCommands rest with
      | .ok os, .ok cs => .ok (⟨c.name, c.description, c.aliases, os⟩ :: cs)
      | .error e, _ => .error e
      | .ok _, .error e => .error e

/-- `SendAvailableCommands` (src/unnamed/part_000:265-297): build all
descriptors, then write one AvailableCommands packet (a panic in
`valueToParamType` aborts before anything is written). -/
def SendAvailableCommands (s : SessionState) (commands : List (String × Command)) :
    Except String (SessionState × List Effect) :=
  match buildCommands commands with
  | .ok cs => .ok (s, [.write (.availableCommands cs)])
  | .error e => .error e

/-! ### Lifecycle: Close and the dispatch loop -/

/-- Results of the two underlying `Close()` calls that `Close` discards
(`_ = s.c.Close(); _ = s.conn.Close()`): `some msg` models a failing
close, `none` a successful one. -/
structure CloseEnv where
  controllableCloseErr : Option String
  connCloseErr : Option String
deriving DecidableEq, Repr

/-- `Close` (src/unnamed/part_000:51-58): close the controllable, close
the connection, announce the departure to the global chat sink, and return
nil — whatever the two underlying closes returned. -/
def Close (s : SessionState) (env : CloseEnv) : Option String × List Effect :=
  (none,
    [.closeControllable, .closeConn,
      .announce (s.displayName ++ " has left the game")])

/-- One dispatch-loop iteration's inputs: the result of the blocking
`ReadPacket` (`none` models a read error) and the value of the atomic
`controllableClosed` flag at the check following the read (the flag may be
set concurrently, e.g. by `Disconnect`, so it is an observation, not a
function of the state the loop threads). -/
structure LoopInput where
  readResult : Option InPacket
  closedFlag : Bool
deriving DecidableEq, Repr

/-- `handlePackets` (src/unnamed/part_000:62-82), run against a finite
prefix of loop inputs. Returns the effect trace and whether the loop
returned within that prefix. Each iteration: on read error return; if the
closed flag is observed true return; dispatch the packet, and on a handler
error log it and return. The deferred `Close` runs on every return path;
an exhausted input list models a loop still blocked on the next read, on
which the deferred `Close` has not yet run. -/
def handlePackets (s : SessionState) (env : CloseEnv) :
    List LoopInput → List Effect × Bool
  | [] => ([], false)
  | input :: rest =>
    match input.readResult with
    | none => ((Close s env).2, true)
    | some pk =>
      if input.closedFlag then
        ((Close s env).2, true)
      else
        match handlePacket s pk with
        | .error msg => (.logError ("error processing packet: " ++ msg) :: (Close s env).2, true)
        | .ok (s', effs) =>
          let r := handlePackets s' env rest
          (effs ++ r.1, r.2)

/-! ### Effect classifiers and sample values used in concrete checks -/

/-- Is this effect the `Controllable.Close()` call? -/
def Effect.isCloseControllable : Effect → Bool
  | .closeControllable => true
  | _ => false

/-- Is this effect the `Connection.Close()` call? -/
def Effect.isCloseConn : Effect → Bool
  | .closeConn => true
  | _ => false

/-- Is this effect a chat-sink announcement? -/
def Effect.isAnnounce : Effect → Bool
  | .announce _ => true
  | _ => false

/-- A concrete correlation token. -/
def sampleOrigin : CommandOrigin := ⟨0, "", "", 0⟩

/-- A second concrete correlation token, distinct from `sampleOrigin`. -/
def sampleOrigin' : CommandOrigin := ⟨1, "u", "r", 7⟩

/-- A concrete session state for the peer "Alice". -/
def sampleSession : SessionState := ⟨"Alice", false, sampleOrigin⟩

/-- A concrete parameterless command named "tp" with alias "teleport". -/
def tpCommand : Command := ⟨"tp", "teleports you", ["teleport"], []⟩

/-- The catalog a registry would produce for `tpCommand`: one entry per
name-or-alias, both mapping to the same command. -/
def sampleCatalog : List (String × Command) :=
  [("tp", tpCommand), ("teleport", tpCommand)]

end Dragonfly

namespace Dragonfly

/-- C1. The parameter-type mapper is NOT total: a value that reaches the
capability tests without implementing `cmd.Parameter` — here a plain
enum-capable value, exactly the kind the enum category is meant to accept —
makes the target-capability test call `Type()` on a nil interface, a
runtime panic. Classification aborts instead of yielding a result. -/
theorem valueToParamType_panics_on_non_parameter :
    valueToParamType ⟨GoType.otherKind, none, some ("direction", ["north", "south"])⟩
        = Except.error nilInterfaceMsg
    ∧ ∀ r, valueToParamType ⟨GoType.otherKind, none, some ("direction", ["north", "south"])⟩
        ≠ Except.ok r := by
  exact ⟨rfl, fun r h => by simp [valueToParamType] at h⟩

/-- C8. The first five classifications hold as claimed: integer kinds map
to the Integer code with the zero enum, floating kinds to the Float code,
string to the String code, boolean to no base code with the inline enum
options `["true", "1", "false", "0"]` (even when the value also carries an
enum capability), and a 3D position vector to the Position code. But an
unrecognized struct type (no capabilities) does not map to the
GenericValue code: the mapper panics on it. -/
theorem valueToParamType_cases :
    valueToParamType ⟨GoType.intKind, none, none⟩ = Except.ok (CommandArgTypeInt, emptyEnum)
    ∧ valueToParamType ⟨GoType.floatKind, none, none⟩ = Except.ok (CommandArgTypeFloat, emptyEnum)
    ∧ valueToParamType ⟨GoType.stringKind, none, none⟩ = Except.ok (CommandArgTypeString, emptyEnum)
    ∧ valueToParamType ⟨GoType.boolKind, none, some ("letters", ["a", "b"])⟩
        = Except.ok (0, ⟨"bool", ["true", "1", "false", "0"]⟩)
    ∧ valueToParamType ⟨GoType.vec3Kind, none, none⟩
        = Except.ok (CommandArgTypePosition, emptyEnum)
    ∧ valueToParamType ⟨GoType.otherKind, none, none⟩ = Except.error nilInterfaceMsg := by
  exact ⟨rfl, rfl, rfl, rfl, rfl, rfl⟩

/-- C2. Four of the five plain-text senders use their corresponding text
sub-kind, but the tip sender does NOT: `SendTip` writes a text packet
whose type is `TextTypePopup` — the same packet `SendPopup` writes — not
the distinct `TextTypeTip` sub-kind the claim requires. -/
theorem sendTip_uses_popup_type :
    (SendMessage sampleSession "hello").2
        = [Effect.write (Packet.text ⟨TextTypeRaw, "", "hello"⟩)]
    ∧ (SendAnnouncement sampleSession "hello").2
        = [Effect.write (Packet.text ⟨TextTypeAnnouncement, "", "hello"⟩)]
    ∧ (SendPopup sampleSession "hello").2
        = [Effect.write (Packet.text ⟨TextTypePopup, "", "hello"⟩)]
    ∧ (SendJukeBoxPopup sampleSession "hello").2
        = [Effect.write (Packet.text ⟨TextTypeJukeboxPopup, "", "hello"⟩)]
    ∧ (SendTip sampleSession "hello").2
        = [Effect.write (Packet.text ⟨TextTypePopup, "", "hello"⟩)]
    ∧ SendTip sampleSession "hello" = SendPopup sampleSession "hello"
    ∧ TextTypePopup ≠ TextTypeTip := by
  exact ⟨rfl, rfl, rfl, rfl, rfl, rfl, by decide⟩

/-- C3. The chat-text handler forwards the message to `Controllable.Chat`
(and nothing else: no outbound write, no state change) exactly when the
packet's text type is chat and its source name equals the session's
display name; in every other case it returns an error and produces no
effects, so `Chat` is never invoked. -/
theorem handleText_spec (s : SessionState) (pk : TextPacket) :
    (pk.textType = TextTypeChat ∧ pk.sourceName = s.displayName →
        handleText s pk = Except.ok [Effect.chat pk.message])
    ∧ (¬(pk.textType = TextTypeChat ∧ pk.sourceName = s.displayName) →
        ∃ msg, handleText s pk = Except.error msg) := by
  constructor
  · rintro ⟨h1, h2⟩
    simp [handleText, h1, h2]
  · intro h
    by_cases h1 : pk.textType = TextTypeChat
    · by_cases h2 : pk.sourceName = s.displayName
      · exact absurd ⟨h1, h2⟩ h
      · exact ⟨"text packet source name must be equal to display name",
          by simp [handleText, h1, h2]⟩
    · exact ⟨"text packet can only contain text type of type chat",
        by simp [handleText, h1]⟩

/-- Witness for C3: on the "Alice" session, a chat-typed packet from
"Alice" is forwarded; a raw-typed packet is rejected. -/
theorem handleText_spec_witness :
    handleText sampleSession ⟨TextTypeChat, "Alice", "hi"⟩ = Except.ok [Effect.chat "hi"]
    ∧ ∃ msg, handleText sampleSession ⟨TextTypeRaw, "Alice", "hi"⟩ = Except.error msg :=
  ⟨(handleText_spec sampleSession ⟨TextTypeChat, "Alice", "hi"⟩).1 ⟨rfl, rfl⟩,
    (handleText_spec sampleSession ⟨TextTypeRaw, "Alice", "hi"⟩).2 (by decide)⟩

/-- C4. The command-request handler errors exactly when the internal flag
is set (and then produces no effects, so `ExecuteCommand` is never
invoked); when the flag is unset it stores the request's origin token as
the pending command origin and forwards the command line verbatim to
`Controllable.ExecuteCommand`. -/
theorem handleCommandRequest_spec (s : SessionState) (pk : CommandRequestPacket) :
    ((∃ msg, handleCommandRequest s pk = Except.error msg) ↔ pk.internal = true)
    ∧ (pk.internal = false →
        handleCommandRequest s pk
          = Except.ok ({ s with cmdOrigin := pk.commandOrigin },
              [Effect.executeCommand pk.commandLine])) := by
  constructor
  · constructor
    · rintro ⟨msg, h⟩
      by_cases hi : pk.internal
      · exact hi
      · simp [handleCommandRequest, hi] at h
    · intro hi
      exact ⟨"command request packet must never have the internal field set to true",
        by simp [handleCommandRequest, hi]⟩
  · intro hi
    simp [handleCommandRequest, hi]

/-- Witness for C4: an internal-flagged request is rejected; a normal
request records its origin token and forwards its line. -/
theorem handleCommandRequest_spec_witness :
    (∃ msg, handleCommandRequest sampleSession ⟨"/give", sampleOrigin', true⟩
        = Except.error msg)
    ∧ handleCommandRequest sampleSession ⟨"/tp Alice", sampleOrigin', false⟩
        = Except.ok (⟨"Alice", false, sampleOrigin'⟩,
            [Effect.executeCommand "/tp Alice"]) :=
  ⟨(handleCommandRequest_spec sampleSession ⟨"/give", sampleOrigin', true⟩).1.mpr rfl,
    (handleCommandRequest_spec sampleSession ⟨"/tp Alice", sampleOrigin', false⟩).2 rfl⟩

/-- C5. For an output with `n` success messages and `m` errors, the
command-output sender writes exactly one packet: its entry list has
`n + m` entries, the first `n` flagged successful carrying the success
messages in order, the last `m` flagged unsuccessful carrying the error
texts in order; its success count equals `n`, it is addressed to the
session's pending command origin, and its output type is the fixed
discriminator 3. (The hypothesis bounds `n` below the 32-bit truncation
of `uint32(output.MessageCount())`.) -/
theorem sendCommandOutput_spec (s : SessionState) (output : CmdOutput)
    (h : output.messages.length < 2 ^ 32) :
    ∃ entries : List CommandOutputMessage,
      SendCommandOutput s output
          = (s, [Effect.write (Packet.commandOutput s.cmdOrigin 3
              output.messages.length entries)])
      ∧ entries.length = output.messages.length + output.errors.length
      ∧ entries.take output.messages.length
          = output.messages.map (fun m => ⟨true, m⟩)
      ∧ entries.drop output.messages.length
          = output.errors.map (fun e => ⟨false, e⟩) := by
  refine ⟨output.messages.map (fun m => ⟨true, m⟩)
      ++ output.errors.map (fun e => ⟨false, e⟩), ?_, ?_, ?_, ?_⟩
  · have h' : output.messages.length % 2 ^ 32 = output.messages.length := Nat.mod_eq_of_lt h
    unfold SendCommandOutput
    rw [h']
  · simp
  · simp
  · simp

/-- Witness for C5, the spec's scenario: 2 success messages and 1 error
produce 3 entries, the first 2 successful, the last unsuccessful, and a
success count of 2. -/
theorem sendCommandOutput_spec_witness :
    ∃ entries : List CommandOutputMessage,
      SendCommandOutput sampleSession ⟨["one", "two"], ["boom"]⟩
          = (sampleSession, [Effect.write (Packet.commandOutput sampleOrigin 3 2 entries)])
      ∧ entries.length = 2 + 1
      ∧ entries.take 2 = [⟨true, "one"⟩, ⟨true, "two"⟩]
      ∧ entries.drop 2 = [⟨false, "boom"⟩] :=
  sendCommandOutput_spec sampleSession ⟨["one", "two"], ["boom"]⟩ (by norm_num)

/-- C6. `Disconnect` writes a disconnect packet whose
hide-disconnection-screen flag is true exactly when the message is empty
(the message text is always carried), and sets the session's closed flag;
every other outbound sender leaves the session state unchanged, so
`Disconnect` is the only sender that mutates lifecycle state. -/
theorem disconnect_spec (s : SessionState) (message : String) :
    ((Disconnect s message).1 = { s with controllableClosed := true }
      ∧ (Disconnect s message).2
          = [Effect.write (Packet.disconnect (message == "") message)]
      ∧ ((message == "") = true ↔ message = ""))
    ∧ (∀ m, (SendMessage s m).1 = s)
    ∧ (∀ m, (SendTip s m).1 = s)
    ∧ (∀ m, (SendAnnouncement s m).1 = s)
    ∧ (∀ m, (SendPopup s m).1 = s)
    ∧ (∀ m, (SendJukeBoxPopup s m).1 = s)
    ∧ (∀ t a b c, (SendTitle s t a b c).1 = s)
    ∧ (∀ t a b c, (SendSubTitle s t a b c).1 = s)
    ∧ (∀ t a b c, (SendActionBarMessage s t a b c).1 = s)
    ∧ (SendNetherDimension s).1 = s
    ∧ (SendEndDimension s).1 = s
    ∧ (SendOverworldDimension s).1 = s
    ∧ (∀ ip port, (Transfer s ip port).1 = s)
    ∧ (∀ output, (SendCommandOutput s output).1 = s)
    ∧ (∀ commands, SendAvailableCommands s commands
        = (buildCommands commands).map
            (fun cs => (s, [Effect.write (Packet.availableCommands cs)]))) := by
  refine ⟨⟨rfl, rfl, beq_iff_eq⟩, fun _ => rfl, fun _ => rfl, fun _ => rfl, fun _ => rfl,
    fun _ => rfl, fun _ _ _ _ => rfl, fun _ _ _ _ => rfl, fun _ _ _ _ => rfl,
    rfl, rfl, rfl, fun _ _ => rfl, fun _ => rfl, fun commands => ?_⟩
  cases h : buildCommands commands <;> simp [SendAvailableCommands, h, Except.map]

/-- On success, the emitted descriptor names are exactly the declared
names of the catalog entries whose key equals that name: an entry is
skipped exactly when its key differs from the command's declared name. -/
theorem buildCommands_ok_names {l : List (String × Command)} {cs : List ProtoCommand}
    (h : buildCommands l = Except.ok cs) :
    cs.map ProtoCommand.name
      = (l.filter fun ac => ac.2.name == ac.1).map fun ac => ac.2.name := by
  induction l generalizing cs with
  | nil =>
    simp only [buildCommands] at h
    cases h
    simp
  | cons hd tl ih =>
    obtain ⟨aliasKey, c⟩ := hd
    by_cases hk : c.name = aliasKey
    · simp only [buildCommands, hk, ne_eq, not_true_eq_false, if_false] at h
      cases ho : buildOverloads c.params with
      | error e => rw [ho] at h; exact absurd h (by simp)
      | ok os =>
        cases ht : buildCommands tl with
        | error e => rw [ho, ht] at h; exact absurd h (by simp)
        | ok cs' =>
          rw [ho, ht] at h
          cases h
          simp [List.filter_cons, hk, ih ht]
    · simp only [buildCommands, hk, ne_eq, not_false_eq_true, if_true] at h
      have hne : (c.name == aliasKey) = false := by
        simpa using hk
      simp [List.filter_cons, hne, ih h]

/-- The names kept by the skip rule are a subsequence of the catalog keys,
so distinct keys give pairwise-distinct emitted names. -/
theorem keptNames_nodup {l : List (String × Command)}
    (hkeys : (l.map Prod.fst).Nodup) :
    (((l.filter fun ac => ac.2.name == ac.1).map fun ac => ac.2.name)).Nodup := by
  have h1 : ((l.filter fun ac => ac.2.name == ac.1).map fun ac => ac.2.name)
      = (l.filter fun ac => ac.2.name == ac.1).map Prod.fst := by
    apply List.map_congr_left
    intro ac hac
    exact beq_iff_eq.mp (List.mem_filter.mp hac).2
  rw [h1]
  exact ((List.filter_sublist l).map Prod.fst).nodup hkeys

/-- Membership in the kept names: `n` is emitted exactly when the catalog
has an entry with key `n` for a command declared `n`. -/
theorem mem_keptNames {l : List (String × Command)} {n : String} :
    n ∈ ((l.filter fun ac => ac.2.name == ac.1).map fun ac => ac.2.name)
      ↔ ∃ c : Command, (n, c) ∈ l ∧ c.name = n := by
  constructor
  · intro hmem
    obtain ⟨ac, hac, hname⟩ := List.mem_map.mp hmem
    have hfil := beq_iff_eq.mp (List.mem_filter.mp hac).2
    have hl := (List.mem_filter.mp hac).1
    refine ⟨ac.2, ?_, hname⟩
    have hac2 : ac = (n, ac.2) := by
      rw [← hname, hfil]
    rwa [← hac2]
  · rintro ⟨c, hmem, hname⟩
    refine List.mem_map.mpr ⟨(n, c), List.mem_filter.mpr ⟨hmem, ?_⟩, hname⟩
    simpa using hname

/-- C7. `SendAvailableCommands`, on any catalog whose keys are distinct
and in which an alias key that equals some command's declared name maps to
the command declaring that alias, writes one catalog packet in which: an
entry is skipped exactly when its key differs from its command's declared
name, at most one descriptor appears per distinct canonical name, and no
two descriptors carry names that are name-or-alias of one and the same
catalog command. -/
theorem sendAvailableCommands_spec (s : SessionState)
    (commands : List (String × Command))
    (hkeys : (commands.map Prod.fst).Nodup)
    (halias : ∀ p ∈ commands, ∀ q ∈ commands,
        Prod.fst q ∈ (Prod.snd p).aliases → (Prod.snd q).name = Prod.fst q →
          Prod.snd q = Prod.snd p)
    (r : SessionState × List Effect)
    (hok : SendAvailableCommands s commands = Except.ok r) :
    ∃ pkCmds : List ProtoCommand,
      r = (s, [Effect.write (Packet.availableCommands pkCmds)])
      ∧ pkCmds.map ProtoCommand.name
          = ((commands.filter fun ac => ac.2.name == ac.1).map fun ac => ac.2.name)
      ∧ (pkCmds.map ProtoCommand.name).Nodup
      ∧ ∀ p ∈ commands, ∀ n₁ ∈ pkCmds.map ProtoCommand.name,
          ∀ n₂ ∈ pkCmds.map ProtoCommand.name,
          n₁ ∈ (Prod.snd p).name :: (Prod.snd p).aliases →
          n₂ ∈ (Prod.snd p).name :: (Prod.snd p).aliases → n₁ = n₂ := by
  cases hb : buildCommands commands with
  | error e => rw [SendAvailableCommands, hb] at hok; exact absurd hok (by simp)
  | ok cs =>
    rw [SendAvailableCommands, hb] at hok
    cases hok
    refine ⟨cs, rfl, buildCommands_ok_names hb, ?_, ?_⟩
    · rw [buildCommands_ok_names hb]
      exact keptNames_nodup hkeys
    · intro p hp n₁ hn₁ n₂ hn₂ hm₁ hm₂
      rw [buildCommands_ok_names hb] at hn₁ hn₂
      obtain ⟨c₁, hc₁, hc₁n⟩ := mem_keptNames.mp hn₁
      obtain ⟨c₂, hc₂, hc₂n⟩ := mem_keptNames.mp hn₂
      rcases List.mem_cons.mp hm₂ with h₂ | h₂
      · rcases List.mem_cons.mp hm₁ with h₁ | h₁
        · rw [h₁, h₂]
        · have : c₁ = p.2 := halias p hp (n₁, c₁) hc₁ h₁ hc₁n
          rw [← hc₁n, this, ← h₂]
      · have hceq : c₂ = p.2 := halias p hp (n₂, c₂) hc₂ h₂ hc₂n
        rcases List.mem_cons.mp hm₁ with h₁ | h₁
        · rw [h₁, ← hceq, hc₂n]
        · have : c₁ = p.2 := halias p hp (n₁, c₁) hc₁ h₁ hc₁n
          rw [← hc₁n, this, ← hceq, hc₂n]

/-- Witness for C7: a catalog holding the "tp" command under both its
canonical key and its alias key "teleport" yields exactly one descriptor,
named "tp". -/
theorem sendAvailableCommands_spec_witness :
    ∃ pkCmds : List ProtoCommand,
      ((sampleSession, [Effect.write (Packet.availableCommands
            [⟨"tp", "teleports you", ["teleport"], []⟩])]) : SessionState × List Effect)
        = (sampleSession, [Effect.write (Packet.availableCommands pkCmds)])
      ∧ pkCmds.map ProtoCommand.name
          = ((sampleCatalog.filter fun ac => ac.2.name == ac.1).map fun ac => ac.2.name)
      ∧ (pkCmds.map ProtoCommand.name).Nodup
      ∧ ∀ p ∈ sampleCatalog, ∀ n₁ ∈ pkCmds.map ProtoCommand.name,
          ∀ n₂ ∈ pkCmds.map ProtoCommand.name,
          n₁ ∈ (Prod.snd p).name :: (Prod.snd p).aliases →
          n₂ ∈ (Prod.snd p).name :: (Prod.snd p).aliases → n₁ = n₂ :=
  sendAvailableCommands_spec sampleSession sampleCatalog (by decide) (by decide)
    (sampleSession, [Effect.write (Packet.availableCommands
      [⟨"tp", "teleports you", ["teleport"], []⟩])]) rfl

/-- A successful `handleText` produces exactly the one `Chat` call. -/
theorem handleText_ok_shape {s : SessionState} {p : TextPacket} {effs : List Effect}
    (h : handleText s p = Except.ok effs) : effs = [Effect.chat p.message] := by
  unfold handleText at h
  split at h
  · exact absurd h (by simp)
  · split at h
    · exact absurd h (by simp)
    · cases h
      rfl

/-- A successful dispatch produces exactly one handler effect: a `Chat`
call, an `ExecuteCommand` call, or a debug log line — never a close, an
announcement or a packet-processing error log. -/
theorem handlePacket_ok_effects {s : SessionState} {pk : InPacket} {s' : SessionState}
    {effs : List Effect} (h : handlePacket s pk = Except.ok (s', effs)) :
    (∃ m, effs = [Effect.chat m]) ∨ (∃ l, effs = [Effect.executeCommand l])
      ∨ (∃ m, effs = [Effect.logDebug m]) := by
  cases pk with
  | text p =>
    cases ht : handleText s p with
    | error e => simp [handlePacket, ht] at h
    | ok effs0 =>
      simp only [handlePacket, ht] at h
      rw [Except.ok.injEq, Prod.mk.injEq] at h
      exact Or.inl ⟨p.message, by rw [← h.2]; exact handleText_ok_shape ht⟩
  | commandRequest p =>
    simp only [handlePacket] at h
    unfold handleCommandRequest at h
    split at h
    · exact absurd h (by simp)
    · rw [Except.ok.injEq, Prod.mk.injEq] at h
      exact Or.inr (Or.inl ⟨p.commandLine, h.2.symm⟩)
  | other typeName =>
    simp only [handlePacket] at h
    rw [Except.ok.injEq, Prod.mk.injEq] at h
    exact Or.inr (Or.inr ⟨_, h.2.symm⟩)

/-- Within any input prefix, the dispatch-loop trace contains a teardown
effect satisfying `q` exactly once when the loop returned, and not at all
when it is still running: the deferred `Close` runs on every exit path
(read error, observed closed flag, handler error) and only there. -/
theorem handlePackets_countP (env : CloseEnv) (q : Effect → Bool)
    (hchat : ∀ m, q (Effect.chat m) = false)
    (hexec : ∀ l, q (Effect.executeCommand l) = false)
    (hdbg : ∀ m, q (Effect.logDebug m) = false)
    (herr : ∀ m, q (Effect.logError m) = false)
    (hclose : ∀ t : SessionState, ((Close t env).2).countP q = 1) :
    ∀ (inputs : List LoopInput) (s : SessionState),
      ((handlePackets s env inputs).1).countP q
        = if (handlePackets s env inputs).2 then 1 else 0 := by
  intro inputs
  induction inputs with
  | nil => intro s; simp [handlePackets]
  | cons input rest ih =>
    intro s
    cases hr : input.readResult with
    | none => simp [handlePackets, hr, hclose]
    | some pk =>
      by_cases hf : input.closedFlag
      · simp [handlePackets, hr, hf, hclose]
      · cases hp : handlePacket s pk with
        | error msg =>
          simp [handlePackets, hr, hf, hp, hclose, List.countP_cons, herr]
        | ok pr =>
          obtain ⟨s', effs⟩ := pr
          have heffs : effs.countP q = 0 := by
            rcases handlePacket_ok_effects hp with ⟨m, hm⟩ | ⟨l, hl⟩ | ⟨m, hm⟩
            · simp [hm, List.countP_cons, hchat]
            · simp [hl, List.countP_cons, hexec]
            · simp [hm, List.countP_cons, hdbg]
          simp [handlePackets, hr, hf, hp, List.countP_append, heffs, ih s']

/-- C9. `Close` returns nil unconditionally — whatever the two underlying
closes returned — and its trace closes the Controllable exactly once,
closes the Connection exactly once, and announces exactly one departure;
and whenever the dispatch loop returned within the given input prefix (by
read error, observed closed flag, or handler error), its trace contains
exactly one such Controllable close, Connection close and departure
announcement, from the single deferred `Close`. -/
theorem close_loop_spec (s : SessionState) (env : CloseEnv) (inputs : List LoopInput)
    (hterm : (handlePackets s env inputs).2 = true) :
    (Close s env).1 = none
    ∧ ((Close s env).2).countP Effect.isCloseControllable = 1
    ∧ ((Close s env).2).countP Effect.isCloseConn = 1
    ∧ ((Close s env).2).countP Effect.isAnnounce = 1
    ∧ ((handlePackets s env inputs).1).countP Effect.isCloseControllable = 1
    ∧ ((handlePackets s env inputs).1).countP Effect.isCloseConn = 1
    ∧ ((handlePackets s env inputs).1).countP Effect.isAnnounce = 1 := by
  have hcc : ∀ t : SessionState, ((Close t env).2).countP Effect.isCloseControllable = 1 := by
    intro t; simp [Close, List.countP_cons, Effect.isCloseControllable]
  have hcn : ∀ t : SessionState, ((Close t env).2).countP Effect.isCloseConn = 1 := by
    intro t; simp [Close, List.countP_cons, Effect.isCloseConn]
  have han : ∀ t : SessionState, ((Close t env).2).countP Effect.isAnnounce = 1 := by
    intro t; simp [Close, List.countP_cons, Effect.isAnnounce]
  refine ⟨rfl, hcc s, hcn s, han s, ?_, ?_, ?_⟩
  · rw [handlePackets_countP env Effect.isCloseControllable
      (fun _ => rfl) (fun _ => rfl) (fun _ => rfl) (fun _ => rfl) hcc inputs s, hterm]
    rfl
  · rw [handlePackets_countP env Effect.isCloseConn
      (fun _ => rfl) (fun _ => rfl) (fun _ => rfl) (fun _ => rfl) hcn inputs s, hterm]
    rfl
  · rw [handlePackets_countP env Effect.isAnnounce
      (fun _ => rfl) (fun _ => rfl) (fun _ => rfl) (fun _ => rfl) han inputs s, hterm]
    rfl

/-- Witness for C9: on a prefix whose first read fails, the loop returns
and its trace tears the session down exactly once; `Close` itself returns
nil and performs each teardown step once. -/
theorem close_loop_spec_witness :
    (Close sampleSession ⟨none, none⟩).1 = none
    ∧ ((Close sampleSession ⟨none, none⟩).2).countP Effect.isCloseControllable = 1
    ∧ ((Close sampleSession ⟨none, none⟩).2).countP Effect.isCloseConn = 1
    ∧ ((Close sampleSession ⟨none, none⟩).2).countP Effect.isAnnounce = 1
    ∧ ((handlePackets sampleSession ⟨none, none⟩ [⟨none, false⟩]).1).countP
        Effect.isCloseControllable = 1
    ∧ ((handlePackets sampleSession ⟨none, none⟩ [⟨none, false⟩]).1).countP
        Effect.isCloseConn = 1
    ∧ ((handlePackets sampleSession ⟨none, none⟩ [⟨none, false⟩]).1).countP
        Effect.isAnnounce = 1 :=
  close_loop_spec sampleSession ⟨none, none⟩ [⟨none, false⟩] rfl

/-- C10. `Transfer` always writes exactly one server-transfer packet: its
address is the textual rendering of the IP, its port is congruent to the
requested port modulo `2 ^ 16` and lies in `[0, 2 ^ 16)` — out-of-range
ports are wrapped by the `uint16` conversion, never rejected — and the
session state is unchanged. -/
theorem transfer_spec (s : SessionState) (ip : NetIP) (port : Int) :
    ∃ p : Nat,
      Transfer s ip port = (s, [Effect.write (Packet.transfer ip.render p)])
      ∧ p < 2 ^ 16
      ∧ (p : Int) % 2 ^ 16 = port % 2 ^ 16 := by
  refine ⟨(port % (2 ^ 16 : Int)).toNat, rfl, ?_, ?_⟩
  · have h2 : port % (2 ^ 16 : Int) < 2 ^ 16 := Int.emod_lt_of_pos port (by norm_num)
    omega
  · have h1 : (0 : Int) ≤ port % (2 ^ 16 : Int) := Int.emod_nonneg port (by norm_num)
    rw [Int.toNat_of_nonneg h1]
    exact Int.emod_emod_of_dvd port dvd_rfl

end Dragonfly
